import Mathlib

/-!
Shallow embedding of the grade-computation core of the Acadify school-records
application (`models.py`): conversion table, formula definition, score ledger,
grade calculator and GPA aggregator, together with theorems checking the
natural-language specification against this embedding.

Conventions of the embedding:
* Python numbers (ints and floats used for scores, weights, percentages and
  grades) are rationals `ℚ`; `round(x, 2)` is `round2` (round half to even,
  as Python's `round` behaves on exact values).
* Python's `str.strip()` is `pyStrip` (drop whitespace at both ends).
* JSON-text columns are modelled by their parsed values: `component_scores`
  is an insertion-ordered association list (Python dicts preserve insertion
  order), a component's value is the tagged union `CompVal` (legacy scalar or
  list of items), `grading_formula` and `grade_conversion_table` are `Option`
  of their structured forms (`none` = column NULL; a JSON parse failure
  behaves identically to NULL in the source, so it is not modelled apart).
* Methods that `raise ValueError` return `Except String` / an error summand;
  the raise paths in the source precede every mutation of persisted state,
  which the embedding mirrors by returning the unchanged record.
-/

/-- Round half to even, as Python's built-in `round` does on exact values. -/
def roundHalfEven (q : ℚ) : ℤ :=
  let f := ⌊q⌋
  let r := q - (f : ℚ)
  if r < 1/2 then f
  else if 1/2 < r then f + 1
  else if f % 2 = 0 then f else f + 1

/-- Python's `round(x, 2)`: round to two decimal places. -/
def round2 (q : ℚ) : ℚ := (roundHalfEven (q * 100) : ℚ) / 100

/-- Python's `str.strip()`: remove leading and trailing whitespace. -/
def pyStrip (s : String) : String :=
  ⟨((s.data.dropWhile Char.isWhitespace).reverse.dropWhile Char.isWhitespace).reverse⟩

/-- Lookup in an insertion-ordered association list (Python `d[k]` / `k in d`). -/
def getKey {α : Type} : List (String × α) → String → Option α
  | [], _ => none
  | (k', v) :: rest, k => if k' = k then some v else getKey rest k

/-- Write to an insertion-ordered association list (Python `d[k] = v`):
replace in place when the key exists, append otherwise. -/
def setKey {α : Type} : List (String × α) → String → α → List (String × α)
  | [], k, v => [(k, v)]
  | (k', v') :: rest, k, v =>
    if k' = k then (k, v) :: rest else (k', v') :: setKey rest k v

/-! ## Conversion table (`Class.get_grade_conversion_table` / `convert_to_ph_grade`) -/

/-- One key of the conversion-table dict: a string of the shape `"lo-hi"`
(two integer bounds) or a single integer literal such as `"75"`. -/
inductive ConvRange where
  | interval (lo hi : ℤ)
  | single (v : ℤ)

/-- One iteration of the lookup loop in `convert_to_ph_grade`:
`min_score <= percentage <= max_score` for a `"lo-hi"` key,
`percentage == int(range_str)` for a single-point key. -/
def rangeMatches (r : ConvRange) (p : ℚ) : Bool :=
  match r with
  | .interval lo hi => decide ((lo : ℚ) ≤ p ∧ p ≤ (hi : ℚ))
  | .single v => decide (p = (v : ℚ))

/-- The loop of `Class.convert_to_ph_grade`: first matching entry wins,
`5.0` when no entry matches. -/
def convertTbl : List (ConvRange × ℚ) → ℚ → ℚ
  | [], _ => 5
  | (r, g) :: rest, p => if rangeMatches r p then g else convertTbl rest p

/-- The default Philippine grading scale returned by
`Class.get_grade_conversion_table` when no custom table is stored. -/
def defaultConversionTable : List (ConvRange × ℚ) :=
  [(.interval 97 100, 1), (.interval 94 96, 125/100), (.interval 91 93, 15/10),
   (.interval 88 90, 175/100), (.interval 85 87, 2), (.interval 82 84, 225/100),
   (.interval 79 81, 25/10), (.interval 76 78, 275/100), (.single 75, 3),
   (.interval 65 74, 4), (.interval 0 64, 5)]

/-! ## Formula definition (`Class.get_grading_formula` / `set_grading_formula`) -/

/-- A validated formula component `{name, weight}` with optional `max_points`
(legacy Option A formulas carry it, Option B ones do not). -/
structure FormulaComponent where
  name : String
  weight : ℚ
  max_points : Option ℚ

/-- A stored grading formula. -/
structure Formula where
  components : List FormulaComponent
  passing_grade : ℚ
  use_philippine_conversion : Bool

/-- The default formula of `Class.get_grading_formula` (priority 3). -/
def defaultFormula : Formula :=
  { components := [⟨"Midterm Exam", 50, none⟩, ⟨"Final Exam", 50, none⟩],
    passing_grade := 3, use_philippine_conversion := true }

/-- A component of a caller-supplied formula dict before validation: any of
the keys `name`, `weight`, `max_points` may be absent. -/
structure RawComponent where
  name : Option String
  weight : Option ℚ
  max_points : Option ℚ

/-- A caller-supplied formula dict before validation. -/
structure RawFormula where
  components : Option (List RawComponent)
  passing_grade : Option ℚ
  use_philippine_conversion : Option Bool

/-- The state of a `Class` row that the grading core reads and writes.
`subject_formula` stands for the formula reachable through the `subject`
relationship (priority 2 of `get_grading_formula`). -/
structure SchoolClass where
  grading_formula : Option Formula
  subject_formula : Option Formula
  grade_conversion_table : Option (List (ConvRange × ℚ))

/-- A `Class` row with all three JSON columns NULL. -/
def emptyClass : SchoolClass :=
  { grading_formula := none, subject_formula := none, grade_conversion_table := none }

/-- `Class.get_grading_formula`: own formula, else subject formula, else the
default 50/50 midterm/final formula. -/
def get_grading_formula (c : SchoolClass) : Formula :=
  match c.grading_formula with
  | some f => f
  | none =>
    match c.subject_formula with
    | some f => f
    | none => defaultFormula

/-- `Class.get_grade_conversion_table`: stored table, else the default scale. -/
def get_grade_conversion_table (c : SchoolClass) : List (ConvRange × ℚ) :=
  c.grade_conversion_table.getD defaultConversionTable

/-- `Class.convert_to_ph_grade`. -/
def convert_to_ph_grade (c : SchoolClass) (percentage : ℚ) : ℚ :=
  convertTbl (get_grade_conversion_table c) percentage

/-- The per-component loop of `Class.set_grading_formula`: the first component
missing `name` or `weight` aborts with that error. -/
def validateComponents : List RawComponent → Option String
  | [] => none
  | r :: rest =>
    if r.name.isNone then some "Each component must have a name"
    else if r.weight.isNone then some "Each component must have a weight"
    else validateComponents rest

/-- `Class.set_grading_formula`: validate, then store. Every `raise` in the
source precedes the single assignment to `self.grading_formula`, so the error
outcome pairs the unchanged class with the message. -/
def set_grading_formula (c : SchoolClass) (raw : RawFormula) :
    SchoolClass × Option String :=
  match raw.components with
  | none => (c, some "Formula must have components key")
  | some comps =>
    match validateComponents comps with
    | some e => (c, some e)
    | none =>
      if (comps.map (fun r => r.weight.getD 0)).sum ≠ 100 then
        (c, some "Component weights must total 100 percent")
      else
        let stored : Formula :=
          ⟨comps.map (fun r => ⟨r.name.getD "", r.weight.getD 0, r.max_points⟩),
           raw.passing_grade.getD 3, raw.use_philippine_conversion.getD true⟩
        ({ c with grading_formula := some stored }, none)

/-! ## Score ledger (`Grade` component-score methods) -/

/-- One scored item `{score, max, name, date}` as created by
`Grade.add_component_item`. -/
structure Item where
  score : ℚ
  max : ℚ
  name : String
  date : String

/-- The value stored under one component key of `component_scores`: a legacy
pre-averaged scalar (Option A) or a list of items (Option B). -/
inductive CompVal where
  | legacy (v : ℚ)
  | items (l : List Item)

/-- The state of a `Grade` row that the grading core reads and writes. -/
structure Grade where
  component_scores : List (String × CompVal)
  calculated_percentage : Option ℚ
  calculated_grade : Option ℚ
  is_overridden : Bool
  override_grade : Option ℚ
  override_reason : Option String
  final_grade : Option ℚ

/-- `Grade.get_component_items`: the component's list, or `[]` when the
component is absent or holds a legacy scalar. -/
def get_component_items (g : Grade) (componentName : String) : List Item :=
  match getKey g.component_scores componentName with
  | some (.items l) => l
  | _ => []

/-- `Grade.add_component_item`. Validation failures raise before any state is
touched; on success the item is appended to the component's list, a missing
component or a legacy scalar value being replaced by a fresh list first.
`now` stands for `datetime.utcnow().strftime('%Y-%m-%d')`. -/
def add_component_item (g : Grade) (componentName : String) (score maxScore : ℚ)
    (itemName : String) (itemDate : Option String) (now : String) :
    Except String (Grade × Item) :=
  if score < 0 then .error "Score cannot be negative"
  else if score > maxScore then .error "Score cannot exceed max score"
  else if maxScore ≤ 0 then .error "Max score must be greater than 0"
  else if pyStrip itemName = "" then .error "Item name is required"
  else
    let item : Item := ⟨score, maxScore, pyStrip itemName, itemDate.getD now⟩
    let old :=
      match getKey g.component_scores componentName with
      | some (.items l) => l
      | _ => []
    .ok ({ g with component_scores :=
            setKey g.component_scores componentName (.items (old ++ [item])) },
         item)

/-- Outcome of `Grade.update_component_item`: the source returns `False` for a
missing component or index, raises `ValueError` for bad input, and returns
`True` after saving. -/
inductive UpdResult where
  | notFound
  | valError (msg : String)
  | success

/-- The date write of `update_component_item` (never fails). -/
def updApplyDate (item : Item) (itemDate? : Option String) : Item :=
  match itemDate? with
  | some d => { item with date := d }
  | none => item

/-- The name check-and-write of `update_component_item`. -/
def updStepName (item : Item) (itemName? itemDate? : Option String) :
    Except String Item :=
  match itemName? with
  | some s =>
    if pyStrip s = "" then .error "Item name cannot be empty"
    else .ok (updApplyDate { item with name := pyStrip s } itemDate?)
  | none => .ok (updApplyDate item itemDate?)

/-- The cross check `item['score'] > item['max']` of `update_component_item`,
performed after the score and max writes. -/
def updStepCross (item : Item) (itemName? itemDate? : Option String) :
    Except String Item :=
  if item.score > item.max then .error "Score cannot exceed max score"
  else updStepName item itemName? itemDate?

/-- The max-score check-and-write of `update_component_item`. -/
def updStepMax (item : Item) (maxScore? : Option ℚ)
    (itemName? itemDate? : Option String) : Except String Item :=
  match maxScore? with
  | some m =>
    if m ≤ 0 then .error "Max score must be greater than 0"
    else updStepCross { item with max := m } itemName? itemDate?
  | none => updStepCross item itemName? itemDate?

/-- The score check-and-write of `update_component_item`, first in the
source's validation order. -/
def updStepScore (item : Item) (score? maxScore? : Option ℚ)
    (itemName? itemDate? : Option String) : Except String Item :=
  match score? with
  | some s =>
    if s < 0 then .error "Score cannot be negative"
    else updStepMax { item with score := s } maxScore? itemName? itemDate?
  | none => updStepMax item maxScore? itemName? itemDate?

/-- `Grade.update_component_item`. The working copy of the ledger is only
persisted by the final `set_component_scores` call, which the `raise` paths
never reach, so every failure outcome pairs the unchanged record. -/
def update_component_item (g : Grade) (componentName : String) (itemIndex : ℕ)
    (score? maxScore? : Option ℚ) (itemName? itemDate? : Option String) :
    Grade × UpdResult :=
  match getKey g.component_scores componentName with
  | some (.items l) =>
    if itemIndex < l.length then
      match updStepScore (l.getD itemIndex ⟨0, 0, "", ""⟩)
          score? maxScore? itemName? itemDate? with
      | .error e => (g, .valError e)
      | .ok item =>
        ({ g with component_scores :=
            setKey g.component_scores componentName (.items (l.set itemIndex item)) },
         .success)
    else (g, .notFound)
  | _ => (g, .notFound)

/-- Result record of `Grade.get_component_summary`. -/
structure ComponentSummary where
  item_count : ℕ
  average_percentage : ℚ
  total_points : ℚ
  total_max : ℚ
  items : List Item

/-- The accumulation loop of `get_component_summary`: per-item percentages,
total points and total max, each accumulated only when `max_score > 0`. -/
def summaryFold (items : List Item) : List ℚ × ℚ × ℚ :=
  items.foldl
    (fun acc item =>
      if 0 < item.max then
        (acc.1 ++ [item.score / item.max * 100], acc.2.1 + item.score, acc.2.2 + item.max)
      else acc)
    ([], 0, 0)

/-- `Grade.get_component_summary`: `None` when the component has no items or
no item with positive max; otherwise the count of all items, the mean of the
per-item percentages rounded to 2 decimals, and the totals. -/
def get_component_summary (g : Grade) (componentName : String) :
    Option ComponentSummary :=
  let items := get_component_items g componentName
  if items.isEmpty then none
  else
    let acc := summaryFold items
    if acc.1.isEmpty then none
    else
      some { item_count := items.length,
             average_percentage := round2 (acc.1.sum / (acc.1.length : ℚ)),
             total_points := acc.2.1,
             total_max := acc.2.2,
             items := items }

/-! ## Grade calculator (`Grade.calculate_grade`, `Grade.set_override`) -/

/-- The inner item loop of `calculate_grade`: an item is skipped when its max
is 0 (the source also skips a missing score/max key, which items built by the
ledger operations always carry). -/
def itemPercentages (l : List Item) : List ℚ :=
  l.foldl (fun acc item =>
    if item.max = 0 then acc else acc ++ [item.score / item.max * 100]) []

/-- One component's contribution inside the loop of `calculate_grade`:
`none` when the component is skipped (no entry, empty list, or no valid
item), otherwise the pair of its weighted-percentage term and its weight. -/
def componentContribution (data : List (String × CompVal))
    (comp : FormulaComponent) : Option (ℚ × ℚ) :=
  match getKey data comp.name with
  | none => none
  | some (.items l) =>
    if l.isEmpty then none
    else
      let ps := itemPercentages l
      if ps.isEmpty then none
      else some (ps.sum / (ps.length : ℚ) * comp.weight / 100, comp.weight)
  | some (.legacy v) =>
    some (v / comp.max_points.getD 100 * 100 * comp.weight / 100, comp.weight)

/-- The accumulation loop of `calculate_grade`: running
`(total_weighted, total_weight)`. -/
def calcTotals (data : List (String × CompVal)) (comps : List FormulaComponent) :
    ℚ × ℚ :=
  comps.foldl
    (fun acc comp =>
      match componentContribution data comp with
      | none => acc
      | some (w, wt) => (acc.1 + w, acc.2 + wt))
    (0, 0)

/-- `Grade.calculate_grade`. The source returns immediately when the parsed
`component_scores` dict is empty (its formula is never falsy: the getter
always supplies one with a `components` key). The override test is Python
truthiness: `self.is_overridden and self.override_grade`, so an override
grade of `None` or `0.0` falls through to the calculated grade. -/
def calculate_grade (g : Grade) (c : SchoolClass) : Grade :=
  if g.component_scores.isEmpty then g
  else
    let totals := calcTotals g.component_scores (get_grading_formula c).components
    if 0 < totals.2 then
      let cp := round2 totals.1
      let cg := convert_to_ph_grade c cp
      { g with calculated_percentage := some cp,
               calculated_grade := some cg,
               final_grade :=
                 if g.is_overridden ∧ g.override_grade.getD 0 ≠ 0 then g.override_grade
                 else some cg }
    else
      { g with calculated_percentage := none,
               calculated_grade := none,
               final_grade := if g.is_overridden then g.final_grade else none }

/-- `Grade.set_override` (the `graded_by` / `graded_at` provenance columns are
outside the modelled state). -/
def set_override (g : Grade) (grade : ℚ) (reason : String) : Grade :=
  { g with is_overridden := true, override_grade := some grade,
           override_reason := some reason, final_grade := some grade }

/-! ## GPA aggregator (`Student.get_semester_gpa` / `get_cumulative_gpa`) -/

/-- The class data one grade record reaches through `grade.test.class_`. -/
structure ClassInfo where
  school_year : String
  semester : String
  effective_units : ℚ
  is_major_subject : Bool

/-- One row of `student.grades` joined to its owning class. -/
structure GradeRow where
  final_grade : Option ℚ
  klass : ClassInfo

/-- The query filter of `get_cumulative_gpa`: keep rows with non-null
`final_grade`. -/
def gatherCumulative (rows : List GradeRow) : List GradeRow :=
  rows.filter (fun r => r.final_grade.isSome)

/-- The query filter of `get_semester_gpa`: keep rows of the given school year
and semester with non-null `final_grade`. -/
def gatherSemester (rows : List GradeRow) (schoolYear semester : String) :
    List GradeRow :=
  rows.filter (fun r =>
    r.klass.school_year == schoolYear && r.klass.semester == semester
      && r.final_grade.isSome)

/-- The shared body of the two GPA methods (the source repeats it verbatim in
both, only the gathering query differing). Each row's `final_grade` is
non-null in every gathered set, so `getD 0` reads the actual value. -/
def gpaFromRows (rows : List GradeRow) (method : String) : Option ℚ :=
  if rows.isEmpty then none
  else if method = "weighted" then
    let totalPoints := (rows.map (fun r => r.final_grade.getD 0 * r.klass.effective_units)).sum
    let totalUnits := (rows.map (fun r => r.klass.effective_units)).sum
    if 0 < totalUnits then some (round2 (totalPoints / totalUnits)) else none
  else if method = "simple" then
    some (round2 ((rows.map (fun r => r.final_grade.getD 0)).sum / (rows.length : ℚ)))
  else if method = "major_only" then
    let majorRows := rows.filter (fun r => r.klass.is_major_subject)
    if majorRows.isEmpty then none
    else some (round2 ((majorRows.map (fun r => r.final_grade.getD 0)).sum / (majorRows.length : ℚ)))
  else none

/-- `Student.get_semester_gpa`. -/
def get_semester_gpa (rows : List GradeRow) (schoolYear semester method : String) :
    Option ℚ :=
  gpaFromRows (gatherSemester rows schoolYear semester) method

/-- `Student.get_cumulative_gpa`. -/
def get_cumulative_gpa (rows : List GradeRow) (method : String) : Option ℚ :=
  gpaFromRows (gatherCumulative rows) method

/-! ## Helper lemmas about the embedding -/

/-- Reading back the key just written. -/
theorem getKey_setKey_self {α : Type} (l : List (String × α)) (k : String) (v : α) :
    getKey (setKey l k v) k = some v := by
  induction l with
  | nil => simp [getKey, setKey]
  | cons hd tl ih =>
    obtain ⟨k', v'⟩ := hd
    by_cases h : k' = k
    · simp [setKey, getKey, h]
    · simpa [setKey, getKey, h] using ih

/-- Writing one key leaves every other key's value alone. -/
theorem getKey_setKey_other {α : Type} (l : List (String × α)) (k o : String)
    (v : α) (h : o ≠ k) : getKey (setKey l k v) o = getKey l o := by
  have hko : ¬ k = o := fun hh => h hh.symm
  induction l with
  | nil => simp [getKey, setKey, hko]
  | cons hd tl ih =>
    obtain ⟨k', v'⟩ := hd
    by_cases hk : k' = k
    · subst hk
      simp [setKey, getKey, hko]
    · by_cases ho : k' = o <;> simp [setKey, getKey, hk, ho, ih, h]

/-- The contributions of the non-skipped formula components, in formula
order: the declarative reading of the accumulation loop of
`calculate_grade`. -/
def contributions (data : List (String × CompVal)) (comps : List FormulaComponent) :
    List (ℚ × ℚ) :=
  comps.filterMap (componentContribution data)

/-- The `weightedSum` of the specification: sum of `avg * weight / 100` over
the non-skipped components, with no renormalization. -/
def weighted_sum (g : Grade) (c : SchoolClass) : ℚ :=
  ((contributions g.component_scores (get_grading_formula c).components).map Prod.fst).sum

/-- The `weightTotal` of the specification: sum of the weights of the
non-skipped components. -/
def weight_total (g : Grade) (c : SchoolClass) : ℚ :=
  ((contributions g.component_scores (get_grading_formula c).components).map Prod.snd).sum

theorem calcTotals_go (data : List (String × CompVal))
    (comps : List FormulaComponent) (a : ℚ × ℚ) :
    comps.foldl
      (fun acc comp =>
        match componentContribution data comp with
        | none => acc
        | some (w, wt) => (acc.1 + w, acc.2 + wt)) a
      = (a.1 + ((contributions data comps).map Prod.fst).sum,
         a.2 + ((contributions data comps).map Prod.snd).sum) := by
  induction comps generalizing a with
  | nil => simp [contributions]
  | cons hd tl ih =>
    simp only [List.foldl_cons, contributions, List.filterMap_cons]
    cases h : componentContribution data hd with
    | none => simpa [h, contributions] using ih a
    | some p =>
      obtain ⟨w, wt⟩ := p
      simp only [h, contributions, List.map_cons, List.sum_cons] at ih ⊢
      rw [ih]
      simp only [Prod.mk.injEq]
      constructor <;> ring

/-- The loop of `calculate_grade` computes exactly
`(weightedSum, weightTotal)`. -/
theorem calcTotals_eq (data : List (String × CompVal)) (comps : List FormulaComponent) :
    calcTotals data comps =
      (((contributions data comps).map Prod.fst).sum,
       ((contributions data comps).map Prod.snd).sum) := by
  simpa [calcTotals] using calcTotals_go data comps (0, 0)

/-- With an empty ledger no component contributes. -/
theorem contributions_nil_data (comps : List FormulaComponent) :
    contributions [] comps = [] := by
  induction comps with
  | nil => rfl
  | cons hd tl ih =>
    unfold contributions at ih ⊢
    rw [List.filterMap_cons]
    have h : componentContribution [] hd = none := rfl
    rw [h]
    exact ih

/-- Claim C1: with at least one contributing component (positive accumulated
weight total), `calculate_grade` stores `round(weightedSum, 2)` as the
calculated percentage, where `weightedSum` sums `avg * weight / 100` over the
non-skipped components; the accumulated weight total never divides it. -/
theorem c1_no_renormalization (g : Grade) (c : SchoolClass)
    (h : 0 < weight_total g c) :
    (calculate_grade g c).calculated_percentage = some (round2 (weighted_sum g c)) := by
  have hne : g.component_scores.isEmpty = false := by
    cases hcs : g.component_scores with
    | nil =>
      exfalso
      unfold weight_total at h
      rw [hcs, contributions_nil_data] at h
      simp at h
    | cons hd tl => simp
  unfold weight_total at h
  simp only [calculate_grade, hne, Bool.false_eq_true, if_false, calcTotals_eq]
  rw [if_pos h]
  simp [weighted_sum]

/-- Claim C6: conversion lookup scans the table in order, the first matching
range wins, a missed lookup falls back to the failing grade 5.0; under the
default table 75 converts to 3.0, 100 to 1.0, and -5 to 5.0. -/
theorem c6_conversion_lookup :
    (∀ (table : List (ConvRange × ℚ)) (p : ℚ),
        convertTbl table p =
          ((table.find? (fun e => rangeMatches e.1 p)).map Prod.snd).getD 5)
    ∧ convert_to_ph_grade emptyClass 75 = 3
    ∧ convert_to_ph_grade emptyClass 100 = 1
    ∧ convert_to_ph_grade emptyClass (-5) = 5 := by
  refine ⟨?_, ?_, ?_, ?_⟩
  · intro table p
    induction table with
    | nil => rfl
    | cons hd tl ih =>
      obtain ⟨r, gr⟩ := hd
      by_cases h : rangeMatches r p
      · simp [convertTbl, h]
      · simp [convertTbl, h, ih]
  · norm_num [convert_to_ph_grade, get_grade_conversion_table, emptyClass,
              defaultConversionTable, convertTbl, rangeMatches]
  · norm_num [convert_to_ph_grade, get_grade_conversion_table, emptyClass,
              defaultConversionTable, convertTbl, rangeMatches]
  · norm_num [convert_to_ph_grade, get_grade_conversion_table, emptyClass,
              defaultConversionTable, convertTbl, rangeMatches]

/-- Claim C10: the default table's integer bounds leave gaps: 96.5 and 75.5
lie strictly between 0 and 100, match no range, and convert to the failing
grade 5.0, while the neighbouring integer percentages 96, 97, 75 and 76 all
convert to grades at or below the default passing grade 3.0. -/
theorem c10_conversion_gaps :
    (∀ e ∈ defaultConversionTable, rangeMatches e.1 (965/10) = false) ∧
    convert_to_ph_grade emptyClass (965/10) = 5 ∧
    (∀ e ∈ defaultConversionTable, rangeMatches e.1 (151/2) = false) ∧
    convert_to_ph_grade emptyClass (151/2) = 5 ∧
    convert_to_ph_grade emptyClass 96 = 125/100 ∧
    convert_to_ph_grade emptyClass 97 = 1 ∧
    convert_to_ph_grade emptyClass 75 = 3 ∧
    convert_to_ph_grade emptyClass 76 = 275/100 ∧
    convert_to_ph_grade emptyClass 96 ≤ defaultFormula.passing_grade ∧
    convert_to_ph_grade emptyClass 97 ≤ defaultFormula.passing_grade ∧
    convert_to_ph_grade emptyClass 75 ≤ defaultFormula.passing_grade ∧
    convert_to_ph_grade emptyClass 76 ≤ defaultFormula.passing_grade ∧
    (0 : ℚ) < 965/10 ∧ (965/10 : ℚ) < 100 ∧ (0 : ℚ) < 151/2 ∧ (151/2 : ℚ) < 100 := by
  refine ⟨?_, ?_, ?_, ?_, ?_, ?_, ?_, ?_, ?_, ?_, ?_, ?_, ?_, ?_, ?_, ?_⟩ <;>
    first
      | (intro e he
         fin_cases he <;> norm_num [rangeMatches])
      | norm_num [convert_to_ph_grade, get_grade_conversion_table, emptyClass,
                  defaultConversionTable, convertTbl, rangeMatches, defaultFormula]

/-- The class of the C1 example: formula `[{Quizzes,30},{Exams,70}]`. -/
def c1ExampleClass : SchoolClass :=
  ⟨some ⟨[⟨"Quizzes", 30, none⟩, ⟨"Exams", 70, none⟩], 3, true⟩, none, none⟩

/-- The grade record of the C1 example: the Quizzes component absent, one
exam at 90/100. -/
def c1ExampleGrade : Grade :=
  { component_scores := [("Exams", .items [⟨90, 100, "Final Exam", "2024-12-01"⟩])],
    calculated_percentage := none, calculated_grade := none,
    is_overridden := false, override_grade := none, override_reason := none,
    final_grade := none }

/-- Claim C1 witness: on the `[{Quizzes,30},{Exams,70}]` example with Quizzes
absent and Exams averaging 90%, the weight total is 70 and the calculated
percentage is 63.0, not 90.0. -/
theorem c1_witness :
    0 < weight_total c1ExampleGrade c1ExampleClass ∧
    (calculate_grade c1ExampleGrade c1ExampleClass).calculated_percentage = some 63 := by
  have hqz : ¬ ("Exams" = "Quizzes") := by decide
  have hw : weight_total c1ExampleGrade c1ExampleClass = 70 := by
    norm_num [weight_total, contributions, componentContribution, c1ExampleGrade,
      c1ExampleClass, get_grading_formula, getKey, itemPercentages,
      List.filterMap_cons, hqz]
  have hws : weighted_sum c1ExampleGrade c1ExampleClass = 63 := by
    norm_num [weighted_sum, contributions, componentContribution, c1ExampleGrade,
      c1ExampleClass, get_grading_formula, getKey, itemPercentages,
      List.filterMap_cons, hqz]
  refine ⟨by rw [hw]; norm_num, ?_⟩
  rw [c1_no_renormalization c1ExampleGrade c1ExampleClass (by rw [hw]; norm_num)]
  rw [hws]
  norm_num [round2, roundHalfEven]

/-- A grade record with an active override whose weight total comes out zero
and whose stored final grade differs from the override grade. -/
def c2CexGrade : Grade :=
  { component_scores := [("Exams", .items [])],
    calculated_percentage := none, calculated_grade := none,
    is_overridden := true, override_grade := some 2,
    override_reason := some "manual adjustment", final_grade := some 1 }

/-- Claim C2 counterexample: this record has an active override
(`is_overridden` true, `override_grade = 2.0`), yet `calculate_grade` leaves
`final_grade = 1.0`: with a zero weight total the calculator never assigns
`override_grade` to `final_grade`, it merely refrains from nulling it. -/
theorem c2_counterexample :
    c2CexGrade.is_overridden = true ∧
    c2CexGrade.override_grade = some 2 ∧
    (calculate_grade c2CexGrade emptyClass).final_grade = some 1 ∧
    (calculate_grade c2CexGrade emptyClass).final_grade ≠ c2CexGrade.override_grade := by
  have hcalc : (calculate_grade c2CexGrade emptyClass).final_grade = some 1 := by
    norm_num [calculate_grade, c2CexGrade, calcTotals, componentContribution,
      getKey, emptyClass, get_grading_formula, defaultFormula, itemPercentages,
      show ¬ ("Exams" = "Midterm Exam") from by decide,
      show ¬ ("Exams" = "Final Exam") from by decide]
  refine ⟨rfl, rfl, hcalc, ?_⟩
  rw [hcalc]
  simp [c2CexGrade]

/-- Claim C2 (amended): with `is_overridden` true and `override_grade` set to
a nonzero grade, `calculate_grade` sets `final_grade = override_grade` exactly
when the accumulated weight total is positive; otherwise (zero weight total,
or an empty ledger) it leaves `final_grade` unchanged, so the override value
shows only if it was already stored there (as `set_override` does). -/
theorem c2_override_amended (g : Grade) (c : SchoolClass) (x : ℚ)
    (hov : g.is_overridden = true) (hx : g.override_grade = some x) (hx0 : x ≠ 0) :
    (calculate_grade g c).final_grade =
      if 0 < weight_total g c then some x else g.final_grade := by
  by_cases hcs : g.component_scores.isEmpty
  · have hempty : g.component_scores = [] := by
      cases hl : g.component_scores
      · rfl
      · rw [hl] at hcs; simp at hcs
    have hw : weight_total g c = 0 := by
      unfold weight_total
      rw [hempty, contributions_nil_data]
      simp
    rw [if_neg (by rw [hw]; norm_num)]
    simp [calculate_grade, hcs]
  · have hcsf : g.component_scores.isEmpty = false := by simpa using hcs
    by_cases hw : 0 < weight_total g c
    · have hw' := hw
      unfold weight_total at hw'
      simp only [calculate_grade, hcsf, Bool.false_eq_true, if_false, calcTotals_eq]
      rw [if_pos hw', if_pos hw]
      simp [hov, hx, hx0]
    · have hw' := hw
      unfold weight_total at hw'
      simp only [calculate_grade, hcsf, Bool.false_eq_true, if_false, calcTotals_eq]
      rw [if_neg hw', if_neg hw]
      simp [hov]

/-- A grade record overridden to 1.25 with a full-weight exam component. -/
def c2WitnessGrade : Grade :=
  { component_scores := [("Exams", .items [⟨90, 100, "Prelim Exam", "2024-09-15"⟩])],
    calculated_percentage := none, calculated_grade := none,
    is_overridden := true, override_grade := some (125/100),
    override_reason := some "appeal granted", final_grade := some (125/100) }

/-- The class of the C2 witness: a single full-weight Exams component. -/
def c2WitnessClass : SchoolClass :=
  ⟨some ⟨[⟨"Exams", 100, none⟩], 3, true⟩, none, none⟩

/-- Claim C2 witness: with data present (weight total 100) the override value
1.25 is written to `final_grade`. -/
theorem c2_witness :
    (calculate_grade c2WitnessGrade c2WitnessClass).final_grade = some (125/100) := by
  have hw : weight_total c2WitnessGrade c2WitnessClass = 100 := by
    norm_num [weight_total, contributions, componentContribution, c2WitnessGrade,
      c2WitnessClass, get_grading_formula, getKey, itemPercentages,
      List.filterMap_cons]
  rw [c2_override_amended c2WitnessGrade c2WitnessClass (125/100) rfl rfl (by norm_num)]
  rw [if_pos (by rw [hw]; norm_num)]

/-- A grade record with an empty `component_scores` dict but stale derived
fields (as an update that wipes the dict leaves behind). -/
def c3CexGrade : Grade :=
  { component_scores := [], calculated_percentage := some 63,
    calculated_grade := some 3, is_overridden := false, override_grade := none,
    override_reason := none, final_grade := some 3 }

/-- Claim C3 counterexample: the weight total is zero (the ledger is entirely
empty) and no override is active, yet `calculate_grade` leaves all three
derived fields at their stale non-null values: the source returns before the
loop when the parsed `component_scores` dict is empty. -/
theorem c3_counterexample :
    weight_total c3CexGrade emptyClass = 0 ∧
    c3CexGrade.is_overridden = false ∧
    (calculate_grade c3CexGrade emptyClass).calculated_percentage = some 63 ∧
    (calculate_grade c3CexGrade emptyClass).calculated_grade = some 3 ∧
    (calculate_grade c3CexGrade emptyClass).final_grade = some 3 := by
  have hcalc : calculate_grade c3CexGrade emptyClass = c3CexGrade := by
    simp [calculate_grade, c3CexGrade]
  have hw : weight_total c3CexGrade emptyClass = 0 := by
    unfold weight_total
    rw [show c3CexGrade.component_scores = [] from rfl, contributions_nil_data]
    simp
  rw [hcalc]
  exact ⟨hw, rfl, rfl, rfl, rfl⟩

/-- Claim C3 (amended): when the weight total is zero, `calculate_grade`
nulls `calculated_percentage` and `calculated_grade` and — unless an override
is active — `final_grade`, provided the `component_scores` dict is non-empty;
when the dict is entirely empty the calculator returns at once and every
derived field keeps its previous value. -/
theorem c3_incomplete_amended (g : Grade) (c : SchoolClass)
    (h : weight_total g c = 0) :
    (g.component_scores = [] → calculate_grade g c = g) ∧
    (g.component_scores ≠ [] →
      (calculate_grade g c).calculated_percentage = none ∧
      (calculate_grade g c).calculated_grade = none ∧
      (calculate_grade g c).final_grade =
        (if g.is_overridden then g.final_grade else none)) := by
  constructor
  · intro he
    simp [calculate_grade, he]
  · intro hne
    have hcsf : g.component_scores.isEmpty = false := by
      cases hcs : g.component_scores
      · exact absurd hcs hne
      · simp
    have h' := h
    unfold weight_total at h'
    simp only [calculate_grade, hcsf, Bool.false_eq_true, if_false, calcTotals_eq]
    rw [if_neg (by rw [h']; norm_num)]
    exact ⟨rfl, rfl, rfl⟩

/-- A grade record whose only component exists but has zero items, with stale
derived fields and no override. -/
def c3WitnessGrade : Grade :=
  { component_scores := [("Exams", .items [])], calculated_percentage := some 63,
    calculated_grade := some 3, is_overridden := false, override_grade := none,
    override_reason := none, final_grade := some 3 }

/-- Claim C3 witness: with a non-empty dict yielding no data the derived
fields are nulled, and with an entirely empty dict the record is untouched. -/
theorem c3_witness :
    ((calculate_grade c3WitnessGrade emptyClass).calculated_percentage = none ∧
      (calculate_grade c3WitnessGrade emptyClass).calculated_grade = none ∧
      (calculate_grade c3WitnessGrade emptyClass).final_grade = none) ∧
    calculate_grade c3CexGrade emptyClass = c3CexGrade := by
  have hw : weight_total c3WitnessGrade emptyClass = 0 := by
    norm_num [weight_total, contributions, componentContribution, c3WitnessGrade,
      emptyClass, get_grading_formula, defaultFormula, getKey, itemPercentages,
      List.filterMap_cons, show ¬ ("Exams" = "Midterm Exam") from by decide,
      show ¬ ("Exams" = "Final Exam") from by decide]
  have hw0 : weight_total c3CexGrade emptyClass = 0 := by
    unfold weight_total
    rw [show c3CexGrade.component_scores = [] from rfl, contributions_nil_data]
    simp
  constructor
  · have h := (c3_incomplete_amended c3WitnessGrade emptyClass hw).2 (by simp [c3WitnessGrade])
    simpa [c3WitnessGrade] using h
  · exact (c3_incomplete_amended c3CexGrade emptyClass hw0).1 rfl

/-- The component loop of `set_grading_formula` passes exactly when every
component carries both a name and a weight. -/
theorem validateComponents_eq_none_iff (comps : List RawComponent) :
    validateComponents comps = none ↔
      ∀ r ∈ comps, r.name.isSome ∧ r.weight.isSome := by
  induction comps with
  | nil => simp [validateComponents]
  | cons hd tl ih =>
    cases hn : hd.name <;> cases hw : hd.weight <;>
      simp [validateComponents, hn, hw, ih]

/-- Claim C4: a components list whose weights do not sum to exactly 100 is
rejected with an error and the stored formula column is untouched; a list
summing to exactly 100 whose components all carry a name and a weight is
accepted and persisted (with the `passing_grade` / conversion-flag defaults
filled in). -/
theorem c4_formula_validation (c : SchoolClass) (raw : RawFormula)
    (comps : List RawComponent) (h : raw.components = some comps) :
    ((comps.map (fun r => r.weight.getD 0)).sum ≠ 100 →
      (set_grading_formula c raw).2.isSome ∧ (set_grading_formula c raw).1 = c)
    ∧ ((comps.map (fun r => r.weight.getD 0)).sum = 100 →
      (∀ r ∈ comps, r.name.isSome ∧ r.weight.isSome) →
      (set_grading_formula c raw).2 = none ∧
      (set_grading_formula c raw).1.grading_formula =
        some ⟨comps.map (fun r => ⟨r.name.getD "", r.weight.getD 0, r.max_points⟩),
              raw.passing_grade.getD 3, raw.use_philippine_conversion.getD true⟩) := by
  constructor
  · intro hsum
    simp only [set_grading_formula, h]
    cases hv : validateComponents comps with
    | some e => exact ⟨rfl, rfl⟩
    | none =>
      rw [if_pos hsum]
      exact ⟨rfl, rfl⟩
  · intro hsum hall
    have hv : validateComponents comps = none :=
      (validateComponents_eq_none_iff comps).mpr hall
    simp only [set_grading_formula, h, hv]
    rw [if_neg (by simp [hsum])]
    exact ⟨rfl, rfl⟩

/-- A raw formula whose weights sum to 90. -/
def c4BadRaw : RawFormula :=
  ⟨some [⟨some "Quizzes", some 30, none⟩, ⟨some "Exams", some 60, none⟩], none, none⟩

/-- A raw formula whose weights sum to 100. -/
def c4GoodRaw : RawFormula :=
  ⟨some [⟨some "Quizzes", some 30, none⟩, ⟨some "Exams", some 70, none⟩], none, none⟩

/-- A class that already stores some formula. -/
def c4Class : SchoolClass := ⟨some ⟨[⟨"Old", 100, none⟩], 3, true⟩, none, none⟩

/-- Claim C4 witness: the 30+60 formula is rejected leaving the class intact,
the 30+70 formula is persisted with the defaults filled in. -/
theorem c4_witness :
    (set_grading_formula c4Class c4BadRaw).1 = c4Class ∧
    (set_grading_formula c4Class c4BadRaw).2.isSome ∧
    (set_grading_formula c4Class c4GoodRaw).2 = none ∧
    (set_grading_formula c4Class c4GoodRaw).1.grading_formula =
      some ⟨[⟨"Quizzes", 30, none⟩, ⟨"Exams", 70, none⟩], 3, true⟩ := by
  have hbad := (c4_formula_validation c4Class c4BadRaw
    [⟨some "Quizzes", some 30, none⟩, ⟨some "Exams", some 60, none⟩] rfl).1
    (by norm_num)
  have hgood := (c4_formula_validation c4Class c4GoodRaw
    [⟨some "Quizzes", some 30, none⟩, ⟨some "Exams", some 70, none⟩] rfl).2
    (by norm_num) (by intro r hr; fin_cases hr <;> simp)
  refine ⟨hbad.2, hbad.1, hgood.1, ?_⟩
  rw [hgood.2]
  simp [c4GoodRaw]

/-- The items of a component that count toward its summary: those with a
positive max. -/
def validItems (items : List Item) : List Item :=
  items.filter (fun i => decide (0 < i.max))

theorem summaryFold_go (items : List Item) (a : List ℚ × ℚ × ℚ) :
    items.foldl
      (fun acc item =>
        if 0 < item.max then
          (acc.1 ++ [item.score / item.max * 100], acc.2.1 + item.score, acc.2.2 + item.max)
        else acc) a
      = (a.1 ++ (validItems items).map (fun i => i.score / i.max * 100),
         a.2.1 + ((validItems items).map Item.score).sum,
         a.2.2 + ((validItems items).map Item.max).sum) := by
  induction items generalizing a with
  | nil => simp [validItems]
  | cons hd tl ih =>
    simp only [List.foldl_cons, validItems, List.filter_cons]
    by_cases hmax : 0 < hd.max
    · rw [if_pos hmax, ih]
      simp [hmax, validItems, Prod.mk.injEq, add_assoc]
    · rw [if_neg hmax, ih]
      simp [validItems, hmax]

/-- The loop of `get_component_summary` computes the valid items' percentage
list and the two totals. -/
theorem summaryFold_eq (items : List Item) :
    summaryFold items =
      ((validItems items).map (fun i => i.score / i.max * 100),
       ((validItems items).map Item.score).sum,
       ((validItems items).map Item.max).sum) := by
  simpa [summaryFold] using summaryFold_go items ([], 0, 0)

/-- Claim C5: `get_component_summary` returns `None` when the component has
no item with positive max, and otherwise returns the count of all items, the
mean of the per-item percentages (each item weighted equally) rounded to two
decimals, and the totals over the valid items only. -/
theorem c5_summarize (g : Grade) (componentName : String) :
    (validItems (get_component_items g componentName) = [] →
      get_component_summary g componentName = none)
    ∧ (validItems (get_component_items g componentName) ≠ [] →
      get_component_summary g componentName =
        some ⟨(get_component_items g componentName).length,
              round2
                (((validItems (get_component_items g componentName)).map
                    (fun i => i.score / i.max * 100)).sum /
                  ((validItems (get_component_items g componentName)).length : ℚ)),
              ((validItems (get_component_items g componentName)).map Item.score).sum,
              ((validItems (get_component_items g componentName)).map Item.max).sum,
              get_component_items g componentName⟩) := by
  constructor
  · intro hv
    simp [get_component_summary, summaryFold_eq, hv]
  · intro hv
    have hine : (get_component_items g componentName).isEmpty = false := by
      cases hitems : get_component_items g componentName
      · exact absurd (by rw [validItems, hitems]; rfl) hv
      · simp
    have hmape :
        ((validItems (get_component_items g componentName)).map
          (fun i => i.score / i.max * 100)).isEmpty = false := by
      cases hvv : validItems (get_component_items g componentName)
      · exact absurd hvv hv
      · simp
    simp only [get_component_summary, hine, Bool.false_eq_true, if_false,
      summaryFold_eq, hmape, List.length_map]

/-- A grade record with two quiz items, 20/25 and 25/30. -/
def c5WitnessGrade : Grade :=
  { component_scores := [("Quizzes", .items
      [⟨20, 25, "Quiz 1", "2024-09-05"⟩, ⟨25, 30, "Quiz 2", "2024-09-12"⟩])],
    calculated_percentage := none, calculated_grade := none,
    is_overridden := false, override_grade := none, override_reason := none,
    final_grade := none }

/-- Claim C5 witness: items `[{20,25},{25,30}]` summarize to
`averagePercentage = mean(80, 83.33...) = 81.67`, not
`(20+25)/(25+30)*100 = 81.82`. -/
theorem c5_witness :
    validItems (get_component_items c5WitnessGrade "Quizzes") ≠ [] ∧
    get_component_summary c5WitnessGrade "Quizzes" =
      some ⟨2, 8167/100, 45, 55,
            [⟨20, 25, "Quiz 1", "2024-09-05"⟩, ⟨25, 30, "Quiz 2", "2024-09-12"⟩]⟩ := by
  have hitems : get_component_items c5WitnessGrade "Quizzes" =
      [⟨20, 25, "Quiz 1", "2024-09-05"⟩, ⟨25, 30, "Quiz 2", "2024-09-12"⟩] := rfl
  have hvalid : validItems (get_component_items c5WitnessGrade "Quizzes") =
      [⟨20, 25, "Quiz 1", "2024-09-05"⟩, ⟨25, 30, "Quiz 2", "2024-09-12"⟩] := by
    rw [hitems]
    norm_num [validItems, List.filter_cons]
  have hvne : validItems (get_component_items c5WitnessGrade "Quizzes") ≠ [] := by
    rw [hvalid]
    simp
  refine ⟨hvne, ?_⟩
  rw [(c5_summarize c5WitnessGrade "Quizzes").2 hvne, hvalid, hitems]
  norm_num [round2, roundHalfEven, Item.mk.injEq, ComponentSummary.mk.injEq]

/-- Whether an `Except` value is the error summand (a raised `ValueError`). -/
def exceptIsError {ε α : Type} : Except ε α → Bool
  | .error _ => true
  | .ok _ => false

/-- Claim C7: `add_component_item` raises exactly when the score is negative,
the score exceeds the max, the max is non-positive, or the stripped label is
empty; on success it returns the created `{score, max, label, date}` item and
appends it to the named component's list (a fresh list when the component was
absent or held a legacy scalar), leaving every other component unchanged. -/
theorem c7_add_item (g : Grade) (componentName : String) (score maxScore : ℚ)
    (itemName : String) (itemDate : Option String) (now : String) :
    (exceptIsError (add_component_item g componentName score maxScore itemName itemDate now) = true
      ↔ (score < 0 ∨ score > maxScore ∨ maxScore ≤ 0 ∨ pyStrip itemName = ""))
    ∧ (∀ g' item,
      add_component_item g componentName score maxScore itemName itemDate now = .ok (g', item) →
      item = ⟨score, maxScore, pyStrip itemName, itemDate.getD now⟩ ∧
      get_component_items g' componentName = get_component_items g componentName ++ [item] ∧
      ∀ other, other ≠ componentName →
        getKey g'.component_scores other = getKey g.component_scores other) := by
  unfold add_component_item
  split_ifs with h1 h2 h3 h4
  · refine ⟨by simp [exceptIsError, h1], ?_⟩
    intro g' item h
    simp at h
  · refine ⟨by simp [exceptIsError, h2], ?_⟩
    intro g' item h
    simp at h
  · refine ⟨by simp [exceptIsError, h3], ?_⟩
    intro g' item h
    simp at h
  · refine ⟨by simp [exceptIsError, h4], ?_⟩
    intro g' item h
    simp at h
  · refine ⟨by simp [exceptIsError, h1, h2, h3, h4], ?_⟩
    intro g' item h
    simp only [Except.ok.injEq, Prod.mk.injEq] at h
    obtain ⟨hg', hitem⟩ := h
    subst hg'
    subst hitem
    refine ⟨rfl, ?_, ?_⟩
    · show (match getKey (setKey g.component_scores componentName _) componentName with
        | some (.items l) => l
        | _ => []) = _
      rw [getKey_setKey_self]
      rfl
    · intro other hother
      show getKey (setKey g.component_scores componentName _) other = _
      rw [getKey_setKey_other _ _ _ _ hother]

/-- A grade record with one quiz item and one legacy scalar component. -/
def c7WitnessGrade : Grade :=
  { component_scores := [("Quizzes", .items [⟨20, 25, "Quiz 1", "2024-09-05"⟩]),
                         ("Exams", .legacy (175/2))],
    calculated_percentage := none, calculated_grade := none,
    is_overridden := false, override_grade := none, override_reason := none,
    final_grade := none }

/-- Claim C7 witness: adding a valid 18/20 item appends it to the Quizzes
list and leaves the legacy Exams entry untouched, while a negative score is
rejected. -/
theorem c7_witness :
    add_component_item c7WitnessGrade "Quizzes" 18 20 " Quiz 2 " none "2024-09-12" =
      .ok ({ c7WitnessGrade with component_scores :=
              [("Quizzes", .items [⟨20, 25, "Quiz 1", "2024-09-05"⟩, ⟨18, 20, "Quiz 2", "2024-09-12"⟩]),
               ("Exams", .legacy (175/2))] },
           ⟨18, 20, "Quiz 2", "2024-09-12"⟩) ∧
    get_component_items
      ({ c7WitnessGrade with component_scores :=
          [("Quizzes", .items [⟨20, 25, "Quiz 1", "2024-09-05"⟩, ⟨18, 20, "Quiz 2", "2024-09-12"⟩]),
           ("Exams", .legacy (175/2))] } : Grade) "Quizzes" =
      get_component_items c7WitnessGrade "Quizzes" ++ [⟨18, 20, "Quiz 2", "2024-09-12"⟩] ∧
    exceptIsError (add_component_item c7WitnessGrade "Quizzes" (-1) 20 "Quiz 3" none "2024-09-12") = true := by
  have hadd : add_component_item c7WitnessGrade "Quizzes" 18 20 " Quiz 2 " none "2024-09-12" =
      .ok ({ c7WitnessGrade with component_scores :=
              [("Quizzes", .items [⟨20, 25, "Quiz 1", "2024-09-05"⟩, ⟨18, 20, "Quiz 2", "2024-09-12"⟩]),
               ("Exams", .legacy (175/2))] },
           ⟨18, 20, "Quiz 2", "2024-09-12"⟩) := by
    unfold add_component_item
    rw [if_neg (by norm_num), if_neg (by norm_num), if_neg (by norm_num),
        if_neg (by decide)]
    rfl
  refine ⟨hadd, ?_, ?_⟩
  · exact ((c7_add_item c7WitnessGrade "Quizzes" 18 20 " Quiz 2 " none "2024-09-12").2
      _ _ hadd).2.1
  · exact ((c7_add_item c7WitnessGrade "Quizzes" (-1) 20 "Quiz 3" none "2024-09-12").1).mpr
      (Or.inl (by norm_num))

/-- The result of a full item update: each provided field replaces the old
value (labels stripped), each omitted field keeps it. -/
def applyItemUpdate (item : Item) (score? maxScore? : Option ℚ)
    (itemName? itemDate? : Option String) : Item :=
  ⟨score?.getD item.score, maxScore?.getD item.max,
   (itemName?.map pyStrip).getD item.name, itemDate?.getD item.date⟩

/-- A successful pass of the validation chain of `update_component_item`
produces exactly the partial update of the item. -/
theorem updStepScore_ok (item : Item) (score? maxScore? : Option ℚ)
    (itemName? itemDate? : Option String) (item' : Item)
    (h : updStepScore item score? maxScore? itemName? itemDate? = .ok item') :
    item' = applyItemUpdate item score? maxScore? itemName? itemDate? := by
  rcases score? with _ | s <;> rcases maxScore? with _ | m <;>
    rcases itemName? with _ | n <;> rcases itemDate? with _ | d <;>
    (simp only [updStepScore, updStepMax, updStepCross, updStepName,
       updApplyDate, applyItemUpdate] at h ⊢;
     split_ifs at h <;> simp_all [Option.getD])

/-- Claim C8: every failing `update_component_item` call (component missing,
index out of range, or any validation error) leaves the grade record — in
particular its persisted `component_scores` ledger — exactly as it was, and a
successful call rewrites only the addressed item, keeping every omitted field
of it. -/
theorem c8_update_atomicity (g : Grade) (componentName : String) (itemIndex : ℕ)
    (score? maxScore? : Option ℚ) (itemName? itemDate? : Option String) :
    ((update_component_item g componentName itemIndex score? maxScore? itemName? itemDate?).2
        ≠ .success →
      (update_component_item g componentName itemIndex score? maxScore? itemName? itemDate?).1 = g)
    ∧ ((update_component_item g componentName itemIndex score? maxScore? itemName? itemDate?).2
        = .success →
      get_component_items
          (update_component_item g componentName itemIndex score? maxScore? itemName? itemDate?).1
          componentName =
        (get_component_items g componentName).set itemIndex
          (applyItemUpdate
            ((get_component_items g componentName).getD itemIndex ⟨0, 0, "", ""⟩)
            score? maxScore? itemName? itemDate?)) := by
  unfold update_component_item
  split
  · rename_i l hk
    split
    · rename_i hlen
      split
      · exact ⟨fun _ => rfl, fun hs => by simp at hs⟩
      · rename_i item hupd
        refine ⟨fun hns => absurd rfl hns, fun _ => ?_⟩
        show (match getKey (setKey g.component_scores componentName
            (CompVal.items (l.set itemIndex item))) componentName with
          | some (.items l') => l'
          | _ => []) = _
        rw [getKey_setKey_self]
        show l.set itemIndex item = _
        rw [updStepScore_ok _ _ _ _ _ _ hupd]
        show l.set itemIndex _ =
          (get_component_items g componentName).set itemIndex
            (applyItemUpdate ((get_component_items g componentName).getD itemIndex ⟨0, 0, "", ""⟩)
              score? maxScore? itemName? itemDate?)
        unfold get_component_items
        rw [hk]
    · exact ⟨fun _ => rfl, fun hs => by simp at hs⟩
  · exact ⟨fun _ => rfl, fun hs => by simp at hs⟩

/-- A grade record with a single quiz item. -/
def c8WitnessGrade : Grade :=
  { component_scores := [("Quizzes", .items [⟨20, 25, "Quiz 1", "2024-09-05"⟩])],
    calculated_percentage := none, calculated_grade := none,
    is_overridden := false, override_grade := none, override_reason := none,
    final_grade := none }

/-- Claim C8 witness: an out-of-range update fails and leaves the record
untouched; updating only the score of item 0 keeps its max, label and date. -/
theorem c8_witness :
    (update_component_item c8WitnessGrade "Quizzes" 5 (some 22) none none none).2 ≠ .success ∧
    (update_component_item c8WitnessGrade "Quizzes" 5 (some 22) none none none).1 = c8WitnessGrade ∧
    (update_component_item c8WitnessGrade "Quizzes" 0 (some 22) none none none).2 = .success ∧
    get_component_items
        (update_component_item c8WitnessGrade "Quizzes" 0 (some 22) none none none).1 "Quizzes" =
      [⟨22, 25, "Quiz 1", "2024-09-05"⟩] := by
  have hoor : (update_component_item c8WitnessGrade "Quizzes" 5 (some 22) none none none).2 =
      .notFound := rfl
  have hne : (update_component_item c8WitnessGrade "Quizzes" 5 (some 22) none none none).2 ≠
      .success := by
    rw [hoor]
    intro hh
    cases hh
  have hstep : updStepScore (⟨20, 25, "Quiz 1", "2024-09-05"⟩ : Item) (some 22) none none none =
      .ok ⟨22, 25, "Quiz 1", "2024-09-05"⟩ := by
    norm_num [updStepScore, updStepMax, updStepCross, updStepName, updApplyDate]
  have hs : (update_component_item c8WitnessGrade "Quizzes" 0 (some 22) none none none).2 =
      .success := by
    unfold update_component_item
    rw [show getKey c8WitnessGrade.component_scores "Quizzes" =
        some (CompVal.items [⟨20, 25, "Quiz 1", "2024-09-05"⟩]) from rfl]
    simp [hstep]
  refine ⟨hne, (c8_update_atomicity c8WitnessGrade "Quizzes" 5 (some 22) none none none).1 hne,
    hs, ?_⟩
  rw [(c8_update_atomicity c8WitnessGrade "Quizzes" 0 (some 22) none none none).2 hs]
  rfl

/-- Claim C9: both GPA aggregators gather only rows with non-null
`final_grade` (the semester variant further scoped to the given term), return
`None` on an empty gathered set, and under the `weighted` method return
`round(sum(final_grade * units) / sum(units), 2)`, `None` when the unit sum
is not positive. -/
theorem c9_gpa_aggregation (rows : List GradeRow) (schoolYear semester : String) :
    (∀ r ∈ gatherCumulative rows, r.final_grade.isSome)
    ∧ (∀ r ∈ gatherSemester rows schoolYear semester,
        r.final_grade.isSome ∧ r.klass.school_year = schoolYear ∧
          r.klass.semester = semester)
    ∧ (gatherCumulative rows = [] → get_cumulative_gpa rows "weighted" = none)
    ∧ (gatherSemester rows schoolYear semester = [] →
        get_semester_gpa rows schoolYear semester "weighted" = none)
    ∧ (gatherCumulative rows ≠ [] →
        get_cumulative_gpa rows "weighted" =
          if 0 < ((gatherCumulative rows).map (fun r => r.klass.effective_units)).sum then
            some (round2
              (((gatherCumulative rows).map
                  (fun r => r.final_grade.getD 0 * r.klass.effective_units)).sum /
                ((gatherCumulative rows).map (fun r => r.klass.effective_units)).sum))
          else none)
    ∧ (gatherSemester rows schoolYear semester ≠ [] →
        get_semester_gpa rows schoolYear semester "weighted" =
          if 0 < ((gatherSemester rows schoolYear semester).map
              (fun r => r.klass.effective_units)).sum then
            some (round2
              (((gatherSemester rows schoolYear semester).map
                  (fun r => r.final_grade.getD 0 * r.klass.effective_units)).sum /
                ((gatherSemester rows schoolYear semester).map
                  (fun r => r.klass.effective_units)).sum))
          else none) := by
  refine ⟨?_, ?_, ?_, ?_, ?_, ?_⟩
  · intro r hr
    simp only [gatherCumulative, List.mem_filter] at hr
    exact hr.2
  · intro r hr
    simp only [gatherSemester, List.mem_filter, Bool.and_eq_true, beq_iff_eq] at hr
    exact ⟨hr.2.2, hr.2.1.1, hr.2.1.2⟩
  · intro he
    unfold get_cumulative_gpa gpaFromRows
    rw [he]
    rfl
  · intro he
    unfold get_semester_gpa gpaFromRows
    rw [he]
    rfl
  · intro hne
    have hef : (gatherCumulative rows).isEmpty = false := by
      cases hg : gatherCumulative rows
      · exact absurd hg hne
      · simp
    unfold get_cumulative_gpa gpaFromRows
    rw [hef]
    simp only [Bool.false_eq_true, if_false, if_true]
  · intro hne
    have hef : (gatherSemester rows schoolYear semester).isEmpty = false := by
      cases hg : gatherSemester rows schoolYear semester
      · exact absurd hg hne
      · simp
    unfold get_semester_gpa gpaFromRows
    rw [hef]
    simp only [Bool.false_eq_true, if_false, if_true]

/-- Two completed classes: 3 units at final grade 1.5 and 3 units at 2.5. -/
def c9Rows : List GradeRow :=
  [⟨some (15/10), ⟨"2024-2025", "1st Semester", 3, true⟩⟩,
   ⟨some (25/10), ⟨"2024-2025", "2nd Semester", 3, true⟩⟩]

/-- Claim C9 witness: the cumulative weighted GPA of those two classes is
`(1.5*3 + 2.5*3) / 6 = 2.0`. -/
theorem c9_witness :
    gatherCumulative c9Rows ≠ [] ∧
    get_cumulative_gpa c9Rows "weighted" = some 2 := by
  have hg : gatherCumulative c9Rows = c9Rows := rfl
  have hne : gatherCumulative c9Rows ≠ [] := by
    rw [hg]
    simp [c9Rows]
  refine ⟨hne, ?_⟩
  rw [(c9_gpa_aggregation c9Rows "2024-2025" "1st Semester").2.2.2.2.1 hne, hg]
  rw [if_pos (by norm_num [c9Rows])]
  norm_num [c9Rows, round2, roundHalfEven]
